import Mathlib

/-!
Verification of the Flux simulation pipeline (Rust sources under `flux/src`
and `src/`).  The shallow embedding below translates the host-side control
flow into Lean: `f32`/`f64` arithmetic is idealised as exact rational
arithmetic (`ℚ`), machine integers become `ℕ`, GPU kernels become opaque
stage labels or, where a claim needs their numeric contract and the shader
source is not part of the repository snapshot, definitions modelled from the
specification (marked as such in their doc comments).
-/

namespace Flux

/-! ### Simulation clock (`flux/src/flux.rs`, `Flux::compute`) -/

/-- `MAX_ELAPSED_TIME` from `flux.rs`: the time at which the animation timer
resets. -/
def MAX_ELAPSED_TIME : ℚ := 1000

/-- `MAX_FRAME_TIME` from `flux.rs`. -/
def MAX_FRAME_TIME : ℚ := 1 / 10

/-- GPU work issued inside one iteration of the fixed-step loop of
`Flux::compute`, in program order.  Each constructor names one call made by
the loop body. -/
inductive Stage where
  | noiseUpdateBuffers
  | noiseGenerate
  | advectForward
  | advectReverse
  | adjustAdvection
  | diffuse
  | injectNoise
  | calculateDivergence
  | solvePressure
  | subtractGradient
deriving DecidableEq, Repr

/-- Mutable clock state of the `Flux` struct: `last_timestamp`,
`elapsed_time` and `fluid_frame_time` (the fixed-step accumulator). -/
structure ClockState where
  last : ℚ
  elapsed : ℚ
  acc : ℚ
deriving DecidableEq, Repr

/-- The `while self.fluid_frame_time >= self.settings.fluid_timestep` loop of
`Flux::compute`.  Returns the number of fixed steps run, the remaining
accumulator value, and the trace of GPU stages issued (in order).  The body
trace lists the calls of the loop body in program order.  The source loop
does not terminate when `fluid_timestep ≤ 0`; the embedding adds the
`0 < ft` guard so that such degenerate configurations run zero steps, and
every theorem about the loop assumes `0 < ft`. -/
def fluidLoop (ft : ℚ) (acc : ℚ) : ℕ × ℚ × List Stage :=
  if h : 0 < ft ∧ ft ≤ acc then
    let r := fluidLoop ft (acc - ft)
    (r.1 + 1, r.2.1,
      ([Stage.noiseUpdateBuffers, Stage.noiseGenerate,
        Stage.advectForward, Stage.advectReverse, Stage.adjustAdvection,
        Stage.diffuse, Stage.injectNoise,
        Stage.calculateDivergence, Stage.solvePressure,
        Stage.subtractGradient] : List Stage) ++ r.2.2)
  else
    (0, acc, [])
termination_by (⌈acc / ft⌉).toNat
decreasing_by
  have hft := h.1
  have hacc := h.2
  have hdiv : (acc - ft) / ft = acc / ft - 1 := by
    field_simp
  have hone : (1 : ℚ) ≤ acc / ft := (one_le_div hft).mpr hacc
  have hceil : (1 : ℤ) ≤ ⌈acc / ft⌉ := by
    exact_mod_cast le_trans hone (Int.le_ceil (acc / ft))
  have hsub : ⌈(acc - ft) / ft⌉ = ⌈acc / ft⌉ - 1 := by
    rw [hdiv]
    exact Int.ceil_sub_one (acc / ft)
  omega

/-- Result of one animation tick of `Flux::compute`: number of fixed steps
run, the trace of fixed-step GPU stages, and the updated clock state. -/
structure TickResult where
  steps : ℕ
  trace : List Stage
  state : ClockState
deriving DecidableEq, Repr

/-- One call of `Flux::compute` (the per-tick clock logic and fixed-step
loop).  `0.001 * (timestamp - self.last_timestamp)` is written as division
by `1000`, exact in `ℚ`. -/
def computeTick (ft : ℚ) (s : ClockState) (timestamp : ℚ) : TickResult :=
  let timestep := min MAX_FRAME_TIME ((timestamp - s.last) / 1000)
  let elapsed := s.elapsed + timestep
  let elapsed := if 0 ≤ elapsed - MAX_ELAPSED_TIME then elapsed - MAX_ELAPSED_TIME else elapsed
  let acc := s.acc + timestep
  let r := fluidLoop ft acc
  { steps := r.1, trace := r.2.2, state := { last := timestamp, elapsed := elapsed, acc := r.2.1 } }

/-! ### Grid and logical-size clamping (`flux/src/drawer.rs`) -/

/-- One per-cell line state record (`LineState` in `drawer.rs`): endpoint,
velocity, color, color velocity and width components. -/
structure LineState where
  endpointX : ℚ
  endpointY : ℚ
  velocityX : ℚ
  velocityY : ℚ
  colorR : ℚ
  colorG : ℚ
  colorB : ℚ
  colorA : ℚ
  colorVelR : ℚ
  colorVelG : ℚ
  colorVelB : ℚ
  width : ℚ
deriving DecidableEq, Repr

/-- The all-zero line state pushed for every cell by `Grid::new`. -/
def LineState.zero : LineState :=
  { endpointX := 0, endpointY := 0, velocityX := 0, velocityY := 0,
    colorR := 0, colorG := 0, colorB := 0, colorA := 0,
    colorVelR := 0, colorVelG := 0, colorVelB := 0, width := 0 }

/-- `ScalingRatio::new` from `drawer.rs`: per-axis factor
`max(dimension / 171, 1)`, returned as an `(x, y)` pair. -/
def scalingRatioOfDims (columns rows : ℕ) : ℚ × ℚ :=
  (max ((columns : ℚ) / 171) 1, max ((rows : ℚ) / 171) 1)

/-- The `Grid` struct of `drawer.rs`. -/
structure Grid where
  columns : ℕ
  rows : ℕ
  lineCount : ℕ
  scalingRatioX : ℚ
  scalingRatioY : ℚ
  basepoints : List ℚ
  lineState : List LineState
deriving DecidableEq, Repr

/-- `Grid::new` from `drawer.rs`.  Mirrors the source: the float column and
row counts are floored, the basepoint spacing `1/columns`, `1/rows` is taken
from those pre-increment floats, then the stored counts are incremented by
one and the basepoints and zeroed line states are pushed row-major (`v`
outer, `u` inner), two floats per cell.  `f32` arithmetic is idealised as
exact `ℚ` arithmetic; the degenerate divisions `width / 0` and `1 / 0`
(which are `inf` in `f32`) are the `ℚ` convention `0`, so theorems about
degenerate inputs carry positivity hypotheses. -/
def Grid.new (width height gridSpacing : ℕ) : Grid :=
  let w : ℚ := width
  let h : ℚ := height
  let s : ℚ := gridSpacing
  let columns0 : ℤ := ⌊w / s⌋
  let rows0 : ℤ := ⌊(h / w) * (columns0 : ℚ)⌋
  let gridSpacingX : ℚ := 1 / (columns0 : ℚ)
  let gridSpacingY : ℚ := 1 / (rows0 : ℚ)
  let columns : ℕ := columns0.toNat + 1
  let rows : ℕ := rows0.toNat + 1
  let lineCount : ℕ := rows * columns
  let ratio := scalingRatioOfDims columns rows
  { columns := columns
    rows := rows
    lineCount := lineCount
    scalingRatioX := ratio.1
    scalingRatioY := ratio.2
    basepoints :=
      (List.range rows).flatMap fun v =>
        (List.range columns).flatMap fun u =>
          [(u : ℚ) * gridSpacingX, (v : ℚ) * gridSpacingY]
    lineState :=
      (List.range rows).flatMap fun _ =>
        (List.range columns).flatMap fun _ =>
          [LineState.zero] }

/-- `clamp_logical_size` from `drawer.rs`:
`scale = max(max(800/w, 800/h), 1)`, result `(⌊w*scale⌋, ⌊h*scale⌋)`. -/
def clampLogicalSize (width height : ℕ) : ℕ × ℕ :=
  let w : ℚ := width
  let h : ℚ := height
  let minimumDimension : ℚ := 800
  let scale := max (max (minimumDimension / w) (minimumDimension / h)) 1
  ((⌊w * scale⌋).toNat, (⌊h * scale⌋).toNat)

/-! ### Settings (`flux/src/settings.rs`) -/

/-- `ColorScheme` from `settings.rs`. -/
inductive ColorScheme where
  | plasma
  | peacock
  | poolside
  | freedom
  | fromImage (path : String)
deriving DecidableEq, Repr

/-- `Mode` from `settings.rs`. -/
inductive Mode where
  | normal
  | debugNoise
  | debugFluid
  | debugPressure
  | debugDivergence
deriving DecidableEq, Repr

/-- `ClearPressure` from `settings.rs`. -/
inductive ClearPressure where
  | keepPressure
  | clearPressure (baseline : ℚ)
deriving DecidableEq, Repr

/-- One noise channel configuration (`Noise` in `settings.rs`). -/
structure NoiseChannel where
  scale : ℚ
  multiplier : ℚ
  offsetIncrement : ℚ
deriving DecidableEq, Repr

/-- The `Settings` struct (`settings.rs`), restricted to the fields the
embedded operations read. -/
structure Settings where
  mode : Mode
  fluidSize : ℕ
  fluidTimestep : ℚ
  viscosity : ℚ
  velocityDissipation : ℚ
  clearPressure : ClearPressure
  diffusionIterations : ℕ
  pressureIterations : ℕ
  colorScheme : ColorScheme
  lineLength : ℚ
  lineWidth : ℚ
  lineBeginOffset : ℚ
  lineVariance : ℚ
  gridSpacing : ℕ
  viewScale : ℚ
  noiseChannels : List NoiseChannel
deriving DecidableEq, Repr

/-! ### Line uniforms (`flux/src/drawer.rs`, `LineUniforms`) -/

/-- `get_line_scale_factor` from `drawer.rs`:
`1 / min((1 - p) * width + p * height, 2000)` with `p = height / width`
(the reciprocal of the aspect ratio). -/
def getLineScaleFactor (width height : ℚ) : ℚ :=
  let aspectRatio := width / height
  let p := 1 / aspectRatio
  1 / min ((1 - p) * width + p * height) 2000

/-- The `LineUniforms` uniform block of `drawer.rs`. -/
structure LineUniforms where
  aspect : ℚ
  zoom : ℚ
  lineWidth : ℚ
  lineLength : ℚ
  lineBeginOffset : ℚ
  lineVariance : ℚ
  lineNoiseScaleX : ℚ
  lineNoiseScaleY : ℚ
  lineNoiseOffset1 : ℚ
  lineNoiseOffset2 : ℚ
  lineNoiseBlendFactor : ℚ
  colorMode : ℕ
  deltaTime : ℚ
deriving DecidableEq, Repr

/-- `LineUniforms::color_scheme_to_mode` from `drawer.rs`: `Peacock ↦ 0`,
everything else `↦ 1`. -/
def colorSchemeToMode (colorScheme : ColorScheme) : ℕ :=
  match colorScheme with
  | ColorScheme.peacock => 0
  | _ => 1

/-- `LineUniforms::new` from `drawer.rs`. -/
def LineUniforms.new (width height ratioX ratioY : ℚ) (s : Settings) : LineUniforms :=
  let lineScaleFactor := getLineScaleFactor width height
  { aspect := width / height
    zoom := s.viewScale
    lineWidth := s.viewScale * s.lineWidth * lineScaleFactor
    lineLength := s.viewScale * s.lineLength * lineScaleFactor
    lineBeginOffset := s.lineBeginOffset
    lineVariance := s.lineVariance
    lineNoiseScaleX := 64 * ratioX
    lineNoiseScaleY := 64 * ratioY
    lineNoiseOffset1 := 0
    lineNoiseOffset2 := 0
    lineNoiseBlendFactor := 0
    colorMode := colorSchemeToMode s.colorScheme
    deltaTime := 0 }

/-- `LineUniforms::update` from `drawer.rs`: refreshes the settings-derived
fields; the noise offsets, blend factor and delta time are untouched. -/
def LineUniforms.update (width height : ℚ) (s : Settings) (u : LineUniforms) : LineUniforms :=
  let lineScaleFactor := getLineScaleFactor width height
  { u with
    aspect := width / height
    zoom := s.viewScale
    lineWidth := s.viewScale * s.lineWidth * lineScaleFactor
    lineLength := s.viewScale * s.lineLength * lineScaleFactor
    lineBeginOffset := s.lineBeginOffset
    lineVariance := s.lineVariance
    colorMode := colorSchemeToMode s.colorScheme }

/-- `LineUniforms::set_timestep` from `drawer.rs`. -/
def LineUniforms.setTimestep (timestep : ℚ) (u : LineUniforms) : LineUniforms :=
  { u with deltaTime := timestep }

/-- `BASE_OFFSET` from `LineUniforms::tick` (`0.0015`). -/
def BASE_OFFSET : ℚ := 3 / 2000

/-- `BLEND_THRESHOLD` from `LineUniforms::tick` (`4.0`). -/
def BLEND_THRESHOLD : ℚ := 4

/-- `LineUniforms::tick` from `drawer.rs`.  The transcendental perturbation
`1.0 + 0.2 * sin(0.010 * elapsed_time * TAU)` is passed in as the opaque
parameter `perturb`; every theorem below quantifies over arbitrary rational
`perturb`, which covers the values the sine expression can take. -/
def LineUniforms.tick (perturb : ℚ) (u : LineUniforms) : LineUniforms :=
  let offset := BASE_OFFSET * perturb
  let offset1 := u.lineNoiseOffset1 + offset
  let p :=
    if BLEND_THRESHOLD < offset1 then
      (offset1, u.lineNoiseOffset2 + offset, u.lineNoiseBlendFactor + BASE_OFFSET)
    else
      (offset1, u.lineNoiseOffset2, u.lineNoiseBlendFactor)
  if 1 < p.2.2 then
    { u with lineNoiseOffset1 := p.2.1, lineNoiseOffset2 := 0, lineNoiseBlendFactor := 0 }
  else
    { u with lineNoiseOffset1 := p.1, lineNoiseOffset2 := p.2.1, lineNoiseBlendFactor := p.2.2 }

/-- A sequence of `LineUniforms::tick` calls (one per animation tick of
`Drawer::place_lines`), with one opaque perturbation value per tick. -/
def runTicks (ps : List ℚ) (u : LineUniforms) : LineUniforms :=
  ps.foldl (fun u p => LineUniforms.tick p u) u

/-! ### Drawer state machine (`flux/src/drawer.rs`, `Drawer`) -/

/-- The two error kinds of the error-handling design (`render::Problem` and
the spec's §7): resource creation failures and undecodable color images. -/
inductive Problem where
  | resourceCreationFailure
  | invalidColorSource
deriving DecidableEq, Repr

/-- Outcome of a call that may panic (Rust `panic!` / `.unwrap()` on `Err`):
either the process aborts, or the call returns a value. -/
inductive PanicOr (α : Type) where
  | panicked
  | ok (val : α)
deriving DecidableEq, Repr

/-- Host-visible state of the `Drawer` struct: settings captured at
construction, current grid, logical and physical sizes, the basepoint and
(double-buffered, both identically initialised) line-state buffer contents,
the uniform block and the optional color texture (stored as its pixel
dimensions). -/
structure DrawerState where
  settings : Settings
  grid : Grid
  logicalWidth : ℕ
  logicalHeight : ℕ
  physicalWidth : ℕ
  physicalHeight : ℕ
  basepointBuffer : List ℚ
  lineStateBuffer : List LineState
  uniforms : LineUniforms
  colorTexture : Option (ℕ × ℕ)
deriving DecidableEq, Repr

/-- `Drawer::new` from `drawer.rs`: clamps the logical size, builds the grid,
uploads `grid.basepoints` and `grid.line_state`, and constructs the uniform
block with `LineUniforms::new`.  GPU resource creation (fallible only for
reasons outside the data model) is elided. -/
def DrawerState.new (s : Settings) (logicalWidth logicalHeight physicalWidth physicalHeight : ℕ) :
    DrawerState :=
  let clamped := clampLogicalSize logicalWidth logicalHeight
  let grid := Grid.new clamped.1 clamped.2 s.gridSpacing
  { settings := s
    grid := grid
    logicalWidth := clamped.1
    logicalHeight := clamped.2
    physicalWidth := physicalWidth
    physicalHeight := physicalHeight
    basepointBuffer := grid.basepoints
    lineStateBuffer := grid.lineState
    uniforms := LineUniforms.new clamped.1 clamped.2 grid.scalingRatioX grid.scalingRatioY s
    colorTexture := none }

/-- `Drawer::update` from `drawer.rs`: refreshes the uniforms from the new
settings.  Note the source does not store `new_settings` into
`self.settings`; the embedding mirrors that. -/
def DrawerState.update (newSettings : Settings) (d : DrawerState) : DrawerState :=
  { d with
    uniforms := d.uniforms.update d.logicalWidth d.logicalHeight newSettings }

/-- `Drawer::is_srgb` from `drawer.rs`: `color_mode == 2`. -/
def DrawerState.isSrgb (d : DrawerState) : Bool :=
  d.uniforms.colorMode == 2

/-- `Drawer::set_color_texture` from `drawer.rs`.  The image decoder is an
excluded collaborator, so the embedding takes the decode outcome directly:
`none` when the bytes cannot be decoded, `some (w, h)` for a decoded image
of that size.  The source runs
`image::load_from_memory(encoded_bytes).unwrap()`, so a failed decode
panics — modelled by `PanicOr.panicked`.  On success the (possibly
rescaled, elided here) image becomes the color texture and
`color_mode := 1`. -/
def DrawerState.setColorTexture (decoded : Option (ℕ × ℕ)) (d : DrawerState) :
    PanicOr (Except Problem DrawerState) :=
  match decoded with
  | none => PanicOr.panicked
  | some dims =>
      PanicOr.ok (Except.ok
        { d with
          colorTexture := some dims
          uniforms := { d.uniforms with colorMode := 1 } })

/-- `Drawer::resize` from `drawer.rs`: clamps the logical size, rebuilds the
grid at the new size, overwrites the basepoint and line-state buffers with
the freshly built (all-zero) grid contents, and refreshes the uniforms using
the stored settings. -/
def DrawerState.resize (logicalWidth logicalHeight physicalWidth physicalHeight : ℕ)
    (d : DrawerState) : DrawerState :=
  let clamped := clampLogicalSize logicalWidth logicalHeight
  let grid := Grid.new clamped.1 clamped.2 d.settings.gridSpacing
  { d with
    physicalWidth := physicalWidth
    physicalHeight := physicalHeight
    logicalWidth := clamped.1
    logicalHeight := clamped.2
    basepointBuffer := grid.basepoints
    lineStateBuffer := grid.lineState
    grid := grid
    uniforms := d.uniforms.update clamped.1 clamped.2 d.settings }

/-- `Drawer::place_lines` from `drawer.rs`: ticks the uniforms (opaque
perturbation `perturb`, see `LineUniforms.tick`) and sets the timestep; the
GPU transform-feedback pass itself does not touch host-visible uniform
state. -/
def DrawerState.placeLines (perturb timestep : ℚ) (d : DrawerState) : DrawerState :=
  { d with uniforms := (d.uniforms.tick perturb).setTimestep timestep }

/-- One host-level call on a live `Drawer`, for reachability statements. -/
inductive DrawerOp where
  | update (s : Settings)
  | resize (logicalWidth logicalHeight physicalWidth physicalHeight : ℕ)
  | setColorTexture (decoded : Option (ℕ × ℕ))
  | placeLines (perturb timestep : ℚ)
deriving DecidableEq, Repr

/-- Apply one `DrawerOp`.  A panicking `set_color_texture` aborts the
process, so no state transition is observable; the embedding keeps the state
unchanged in that case (the invariant theorems only concern states of a
still-running process). -/
def applyDrawerOp (d : DrawerState) (op : DrawerOp) : DrawerState :=
  match op with
  | DrawerOp.update s => d.update s
  | DrawerOp.resize lw lh pw ph => d.resize lw lh pw ph
  | DrawerOp.setColorTexture decoded =>
      match d.setColorTexture decoded with
      | PanicOr.panicked => d
      | PanicOr.ok (Except.error _) => d
      | PanicOr.ok (Except.ok d2) => d2
  | DrawerOp.placeLines perturb timestep => d.placeLines perturb timestep

/-- Run a sequence of `DrawerOp`s from a starting state. -/
def runDrawerOps (ops : List DrawerOp) (d : DrawerState) : DrawerState :=
  ops.foldl applyDrawerOp d

/-! ### Top-level `Flux` resource state (`flux/src/flux.rs`) -/

/-- Modelled from the spec: the fluid context (`render::fluid::Context`,
whose implementation is not part of the repository snapshot) owns
velocity/pressure/divergence textures whose resolution is derived from
`settings.fluid_size` and the grid scaling ratio passed at construction.
The embedding records those construction parameters; "reinitialised to the
new dimensions" means these fields match the current grid. -/
structure FluidCtx where
  ratioX : ℚ
  ratioY : ℚ
  fluidSize : ℕ
deriving DecidableEq, Repr

/-- Modelled from the spec: the noise generator (`render::noise`, whose
implementation is not part of the repository snapshot) owns one running
offset per configured channel plus an output texture whose size and scaling
ratio are supplied at construction and at `resize`. -/
structure NoiseGen where
  offsets : List ℚ
  size : ℕ
  ratioX : ℚ
  ratioY : ℚ
deriving DecidableEq, Repr

/-- Modelled from the spec: `NoiseGenerator::resize` regenerates the output
texture at the new size without resetting any channel offset (spec §4.3:
continuity of the noise field is preserved across resize). -/
def NoiseGen.resize (newSize : ℕ) (ratioX ratioY : ℚ) (n : NoiseGen) : NoiseGen :=
  { n with size := newSize, ratioX := ratioX, ratioY := ratioY }

/-- Modelled from the spec: the line renderer context (`render::lines`,
whose implementation is not part of the repository snapshot) owns the
per-cell line-state buffers; its `resize` overwrites them with the new
grid's zero-initialised state, exactly as the in-repository
`Drawer::resize` does. -/
structure LinesCtx where
  lineStateBuffer : List LineState
  basepointBuffer : List ℚ
deriving DecidableEq, Repr

/-- Host-visible resource state of the top-level `Flux` struct
(`flux.rs`). -/
structure FluxState where
  settings : Settings
  grid : Grid
  fluid : FluidCtx
  noise : NoiseGen
  lines : LinesCtx
  logicalWidth : ℕ
  logicalHeight : ℕ
  physicalWidth : ℕ
  physicalHeight : ℕ
deriving DecidableEq, Repr

/-- `Flux::new` from `flux.rs`: builds the grid from the logical size and
`settings.grid_spacing`, the fluid context from the grid's scaling ratio,
the line context from the grid, and one noise channel offset per
configured channel (channel offsets start at zero, spec §3). -/
def FluxState.new (s : Settings) (logicalWidth logicalHeight physicalWidth physicalHeight : ℕ) :
    FluxState :=
  let grid := Grid.new logicalWidth logicalHeight s.gridSpacing
  { settings := s
    grid := grid
    fluid := { ratioX := grid.scalingRatioX, ratioY := grid.scalingRatioY,
               fluidSize := s.fluidSize }
    noise := { offsets := List.replicate s.noiseChannels.length 0,
               size := 2 * s.fluidSize,
               ratioX := grid.scalingRatioX, ratioY := grid.scalingRatioY }
    lines := { lineStateBuffer := grid.lineState, basepointBuffer := grid.basepoints }
    logicalWidth := logicalWidth
    logicalHeight := logicalHeight
    physicalWidth := physicalWidth
    physicalHeight := physicalHeight }

/-- `Flux::resize` from `flux.rs`: rebuilds the grid at the new logical
size, resizes the line context (fresh zeroed line state) and the noise
generator (offsets preserved), and updates the stored sizes.  The call
`self.fluid.resize(...)` is commented out in the source, so the fluid
context is left untouched. -/
def FluxState.resize (logicalWidth logicalHeight physicalWidth physicalHeight : ℕ)
    (st : FluxState) : FluxState :=
  let grid := Grid.new logicalWidth logicalHeight st.settings.gridSpacing
  { st with
    lines := { lineStateBuffer := grid.lineState, basepointBuffer := grid.basepoints }
    grid := grid
    logicalWidth := logicalWidth
    logicalHeight := logicalHeight
    physicalWidth := physicalWidth
    physicalHeight := physicalHeight
    noise := st.noise.resize (2 * st.settings.fluidSize) grid.scalingRatioX grid.scalingRatioY }

/-! ### Pressure projection, modelled from the spec (§4.2 steps 6–8)

The divergence, pressure-solve and subtract-gradient kernels are shader
code, not part of the repository snapshot.  The definitions below are
modelled from the spec: divergence `∇·v` of the velocity field, then
`pressure_iterations` Jacobi relaxation passes for the Poisson equation
`∇²p = divergence` starting from a cleared pressure field, then
`velocity -= ∇p`.  They are instantiated on a 3×3 periodic grid with
backward-difference divergence and forward-difference gradient (so that
divergence ∘ gradient is the standard 5-point Laplacian), with a field
stored as two row-major 9-element lists (x and y velocity components). -/

/-- Row-major index into a 3×3 periodic grid. -/
def idx3 (i j : ℕ) : ℕ := 3 * (i % 3) + (j % 3)

/-- Periodic texel fetch from a 9-element field. -/
def get3 (f : List ℚ) (i j : ℕ) : ℚ := f.getD (idx3 i j) 0

/-- Modelled from the spec: §4.2 step 6, `∇·v` by backward differences on
the 3×3 periodic grid (`i+2 ≡ i-1 (mod 3)`). -/
def divergence3 (u v : List ℚ) : List ℚ :=
  (List.range 3).flatMap fun i =>
    (List.range 3).flatMap fun j =>
      [get3 u i j - get3 u (i + 2) j + get3 v i j - get3 v i (j + 2)]

/-- Modelled from the spec: one Jacobi relaxation pass for `∇²p = d`
(§4.2 step 7 and the glossary's "repeatedly averaging neighbor values"). -/
def jacobiStep (d p : List ℚ) : List ℚ :=
  (List.range 3).flatMap fun i =>
    (List.range 3).flatMap fun j =>
      [(get3 p (i + 1) j + get3 p (i + 2) j + get3 p i (j + 1) + get3 p i (j + 2)
          - get3 d i j) / 4]

/-- Modelled from the spec: §4.2 step 7, `pressureIterations` Jacobi passes
from a cleared (`ClearPressure 0`) pressure field. -/
def solvePressure3 (pressureIterations : ℕ) (d : List ℚ) : List ℚ :=
  Nat.rec (List.replicate 9 0) (fun _ p => jacobiStep d p) pressureIterations

/-- Modelled from the spec: §4.2 step 8, `velocity -= ∇p` by forward
differences. -/
def subtractGradient3 (u v p : List ℚ) : List ℚ × List ℚ :=
  ((List.range 3).flatMap fun i =>
     (List.range 3).flatMap fun j =>
       [get3 u i j - (get3 p (i + 1) j - get3 p i j)],
   (List.range 3).flatMap fun i =>
     (List.range 3).flatMap fun j =>
       [get3 v i j - (get3 p i (j + 1) - get3 p i j)])

/-- Modelled from the spec: the projection tail of one fixed step (steps
6–8) at a given `pressure_iterations` setting. -/
def project3 (pressureIterations : ℕ) (u v : List ℚ) : List ℚ × List ℚ :=
  let d := divergence3 u v
  let p := solvePressure3 pressureIterations d
  subtractGradient3 u v p

/-- L1 magnitude of a scalar field. -/
def l1norm (f : List ℚ) : ℚ := (f.map (fun q => |q|)).sum

/-- Divergence magnitude of the projected output field after running the
projection with the given iteration count. -/
def divNormAfter (pressureIterations : ℕ) (u v : List ℚ) : ℚ :=
  let w := project3 pressureIterations u v
  l1norm (divergence3 w.1 w.2)

/-- The neighbor-average operator on the 3×3 periodic grid.  The analysis
below shows that the divergence of the projected field after `k` Jacobi
iterations is exactly this operator iterated `k` times on the initial
divergence, which is why each additional pressure iteration shrinks the
divergence magnitude. -/
def avg3 (r : List ℚ) : List ℚ :=
  (List.range 3).flatMap fun i =>
    (List.range 3).flatMap fun j =>
      [(get3 r (i + 1) j + get3 r (i + 2) j + get3 r i (j + 1) + get3 r i (j + 2)) / 4]

/-- The divergence left after subtracting the gradient of a pressure field
`p` from a velocity field of divergence `d`:
`d - (∇·∇) p` with the standard 5-point Laplacian. -/
def residual3 (d p : List ℚ) : List ℚ :=
  (List.range 3).flatMap fun i =>
    (List.range 3).flatMap fun j =>
      [get3 d i j -
        (get3 p (i + 1) j + get3 p (i + 2) j + get3 p i (j + 1) + get3 p i (j + 2)
          - 4 * get3 p i j)]

/-- Sum of the nine cell values of a grid field. -/
def sum9 (l : List ℚ) : ℚ :=
  l.getD 0 0 + l.getD 1 0 + l.getD 2 0 + l.getD 3 0 + l.getD 4 0 +
    l.getD 5 0 + l.getD 6 0 + l.getD 7 0 + l.getD 8 0

/-- The divergence field of the projected output after `k` pressure
iterations (so `divNormAfter k u v = l1norm (divAfter k u v)`). -/
def divAfter (k : ℕ) (u v : List ℚ) : List ℚ :=
  divergence3 (project3 k u v).1 (project3 k u v).2

/-- Representative pre-projection velocity field with nonzero divergence:
a unit x-velocity in one texel, zero elsewhere. -/
def uSample : List ℚ := [1, 0, 0, 0, 0, 0, 0, 0, 0]

/-- Zero velocity component field (also a divergence-free input). -/
def vZero : List ℚ := List.replicate 9 0

/-- Representative configuration for concrete instantiations, with the
values of the desktop entry point (`crates/flux-desktop/src/main.rs`) where
the two settings structs share a field, and `fluid_timestep = 1/60`. -/
def sampleSettings : Settings :=
  { mode := Mode.normal
    fluidSize := 128
    fluidTimestep := 1 / 60
    viscosity := 5
    velocityDissipation := 0
    clearPressure := ClearPressure.clearPressure 0
    diffusionIterations := 4
    pressureIterations := 20
    colorScheme := ColorScheme.peacock
    lineLength := 400
    lineWidth := 7
    lineBeginOffset := 1 / 2
    lineVariance := 47 / 100
    gridSpacing := 14
    viewScale := 8 / 5
    noiseChannels :=
      [{ scale := 23 / 10, multiplier := 1, offsetIncrement := 1 / 1024 },
       { scale := 138 / 10, multiplier := 7 / 10, offsetIncrement := 1 / 1024 },
       { scale := 276 / 10, multiplier := 5 / 10, offsetIncrement := 1 / 1024 }] }

/-- Blend-factor invariant of `LineUniforms::tick`: the crossfade factor is
always a multiple `k * BASE_OFFSET` with `k ≤ 666` (so it lies in
`[0, 0.999]`): one more increment of `0.0015` from `k = 666` lands strictly
above 1 and triggers the reset. -/
def BlendInv (b : ℚ) : Prop := ∃ k : ℕ, k ≤ 666 ∧ b = (k : ℚ) * BASE_OFFSET

/-! ### Helper lemmas -/

/-- The body trace of one fixed-step iteration, as emitted by `fluidLoop`. -/
def stepStages : List Stage :=
  [Stage.noiseUpdateBuffers, Stage.noiseGenerate,
   Stage.advectForward, Stage.advectReverse, Stage.adjustAdvection,
   Stage.diffuse, Stage.injectNoise,
   Stage.calculateDivergence, Stage.solvePressure, Stage.subtractGradient]

theorem fluidLoop_trace (ft acc : ℚ) :
    (fluidLoop ft acc).2.2 = List.flatten (List.replicate (fluidLoop ft acc).1 stepStages) := by
  induction acc using fluidLoop.induct ft with
  | case1 x hx ih =>
      rw [fluidLoop, dif_pos hx]
      simp only [List.replicate_succ, List.flatten_cons]
      exact congrArg _ ih
  | case2 x hx =>
      rw [fluidLoop, dif_neg hx]
      simp

theorem fluidLoop_count (ft : ℚ) (hft : 0 < ft) (acc : ℚ) :
    (fluidLoop ft acc).1 = (⌊acc / ft⌋).toNat := by
  induction acc using fluidLoop.induct ft with
  | case1 x hx ih =>
      rw [fluidLoop, dif_pos hx]
      have hdiv : (x - ft) / ft = x / ft - 1 := by field_simp
      have hone : (1 : ℚ) ≤ x / ft := (one_le_div hft).mpr hx.2
      have hfone : (1 : ℤ) ≤ ⌊x / ft⌋ := by
        rw [Int.le_floor]
        exact_mod_cast hone
      have hfl : ⌊(x - ft) / ft⌋ = ⌊x / ft⌋ - 1 := by
        rw [hdiv]
        exact Int.floor_sub_one (x / ft)
      simp only [ih, hfl]
      omega
  | case2 x hx =>
      rw [fluidLoop, dif_neg hx]
      have hlt : x < ft := by
        by_contra hge
        exact hx ⟨hft, le_of_not_lt hge⟩
      have hq : x / ft < 1 := (div_lt_one hft).mpr hlt
      have : ⌊x / ft⌋ < 1 := by
        rw [Int.floor_lt]
        exact_mod_cast hq
      omega


theorem cast_toNat_succ_sub_one (m : ℤ) (hm : 0 ≤ m) :
    ((m.toNat + 1 : ℕ) : ℚ) - 1 = (m : ℚ) := by
  have hq : ((m.toNat : ℕ) : ℚ) = (m : ℚ) := by
    exact_mod_cast Int.toNat_of_nonneg hm
  push_cast
  rw [hq]
  ring

theorem flatMap_const_replicate {α β : Type} (l : List α) (k : ℕ) (b : β) :
    (l.flatMap fun _ => List.replicate k b) = List.replicate (l.length * k) b := by
  induction l with
  | nil => simp
  | cons a t ih =>
      simp only [List.flatMap_cons, ih, List.length_cons]
      rw [show (t.length + 1) * k = k + t.length * k by ring, List.replicate_add]

theorem range_flatMap_single {β : Type} (c : ℕ) (b : β) :
    ((List.range c).flatMap fun _ : ℕ => [b]) = List.replicate c b := by
  simpa using flatMap_const_replicate (List.range c) 1 b

theorem grid_lineState_replicate (w h s : ℕ) :
    (Grid.new w h s).lineState = List.replicate ((Grid.new w h s).lineCount) LineState.zero := by
  simp only [Grid.new, range_flatMap_single]
  rw [flatMap_const_replicate]
  simp [Nat.mul_comm]


theorem tick_blend_inv (p : ℚ) (u : LineUniforms) (h : BlendInv u.lineNoiseBlendFactor) :
    BlendInv (u.tick p).lineNoiseBlendFactor := by
  obtain ⟨k, hk, hb⟩ := h
  have hkq : (k : ℚ) ≤ 666 := by exact_mod_cast hk
  have hlt : u.lineNoiseBlendFactor ≤ 999 / 1000 := by
    rw [hb, BASE_OFFSET]
    linarith
  by_cases hi : BLEND_THRESHOLD < u.lineNoiseOffset1 + BASE_OFFSET * p
  · by_cases hr : 1 < u.lineNoiseBlendFactor + BASE_OFFSET
    · have e : (u.tick p).lineNoiseBlendFactor = 0 := by
        simp [LineUniforms.tick, hi, hr]
      rw [e]
      exact ⟨0, by omega, by norm_num⟩
    · have e : (u.tick p).lineNoiseBlendFactor = u.lineNoiseBlendFactor + BASE_OFFSET := by
        simp [LineUniforms.tick, hi, hr]
      rw [e, hb]
      refine ⟨k + 1, ?_, by push_cast; rw [BASE_OFFSET]; ring⟩
      have hle : u.lineNoiseBlendFactor + BASE_OFFSET ≤ 1 := not_lt.mp hr
      rw [hb, BASE_OFFSET] at hle
      have hk665 : k ≤ 665 := by
        by_contra hgt
        have h666 : (666 : ℚ) ≤ (k : ℚ) := by exact_mod_cast by omega
        linarith
      omega
  · have hr : ¬ (1 < u.lineNoiseBlendFactor) := by
      push_neg
      linarith
    have e : (u.tick p).lineNoiseBlendFactor = u.lineNoiseBlendFactor := by
      simp [LineUniforms.tick, hi, hr]
    rw [e]
    exact ⟨k, hk, hb⟩

theorem runTicks_blend_inv (ps : List ℚ) (u : LineUniforms)
    (h : BlendInv u.lineNoiseBlendFactor) :
    BlendInv (runTicks ps u).lineNoiseBlendFactor := by
  induction ps generalizing u with
  | nil => exact h
  | cons p t ih => exact ih _ (tick_blend_inv p u h)

theorem colorSchemeToMode_zero_or_one (cs : ColorScheme) :
    colorSchemeToMode cs = 0 ∨ colorSchemeToMode cs = 1 := by
  cases cs <;> simp [colorSchemeToMode]

theorem tick_colorMode (p : ℚ) (u : LineUniforms) :
    (u.tick p).colorMode = u.colorMode := by
  simp only [LineUniforms.tick]
  split <;> split <;> rfl

theorem applyDrawerOp_colorMode (d : DrawerState) (op : DrawerOp)
    (h : d.uniforms.colorMode = 0 ∨ d.uniforms.colorMode = 1) :
    (applyDrawerOp d op).uniforms.colorMode = 0 ∨
      (applyDrawerOp d op).uniforms.colorMode = 1 := by
  cases op with
  | update s =>
      simpa [applyDrawerOp, DrawerState.update, LineUniforms.update] using
        colorSchemeToMode_zero_or_one s.colorScheme
  | resize lw lh pw ph =>
      simpa [applyDrawerOp, DrawerState.resize, LineUniforms.update] using
        colorSchemeToMode_zero_or_one d.settings.colorScheme
  | setColorTexture decoded =>
      cases decoded with
      | none => simpa [applyDrawerOp, DrawerState.setColorTexture] using h
      | some dims => simp [applyDrawerOp, DrawerState.setColorTexture]
  | placeLines perturb timestep =>
      simpa [applyDrawerOp, DrawerState.placeLines, LineUniforms.setTimestep,
        tick_colorMode] using h

theorem runDrawerOps_colorMode (ops : List DrawerOp) (d : DrawerState)
    (h : d.uniforms.colorMode = 0 ∨ d.uniforms.colorMode = 1) :
    (runDrawerOps ops d).uniforms.colorMode = 0 ∨
      (runDrawerOps ops d).uniforms.colorMode = 1 := by
  induction ops generalizing d with
  | nil => exact h
  | cons op t ih => exact ih _ (applyDrawerOp_colorMode d op h)

/-! ### Claims -/

theorem range_three : List.range 3 = [0, 1, 2] := rfl

theorem abs_div_four (x : ℚ) : |x / 4| = |x| / 4 := by
  rw [abs_div]
  norm_num

theorem abs4_le (x1 x2 x3 x4 : ℚ) :
    |x1 + x2 + x3 + x4| ≤ |x1| + |x2| + |x3| + |x4| := by
  linarith [abs_add (x1 + x2 + x3) x4, abs_add (x1 + x2) x3, abs_add x1 x2]

theorem abs4_lt (x1 x2 x3 x4 a b : ℚ)
    (ha : a ∈ [x1, x2, x3, x4]) (hb : b ∈ [x1, x2, x3, x4])
    (hpa : 0 < a) (hbn : b < 0) :
    |x1 + x2 + x3 + x4| < |x1| + |x2| + |x3| + |x4| := by
  simp only [List.mem_cons, List.not_mem_nil, or_false] at ha hb
  rcases ha with h | h | h | h <;> rcases hb with h2 | h2 | h2 | h2 <;>
    (rw [h] at hpa
     rw [h2] at hbn
     rw [abs_lt]
     constructor <;>
       linarith [le_abs_self x1, le_abs_self x2, le_abs_self x3, le_abs_self x4,
         neg_abs_le x1, neg_abs_le x2, neg_abs_le x3, neg_abs_le x4, hpa, hbn])

set_option maxHeartbeats 8000000 in
theorem l1_avg3_lt (r : List ℚ) (hr : r.length = 9)
    (hp : ∃ p : ℕ, p < 9 ∧ 0 < r.getD p 0)
    (hq : ∃ q : ℕ, q < 9 ∧ r.getD q 0 < 0) :
    l1norm (avg3 r) < l1norm r := by
  rcases r with _ | ⟨a0, r⟩
  case nil => simp at hr
  rcases r with _ | ⟨a1, r⟩
  case nil => simp at hr
  rcases r with _ | ⟨a2, r⟩
  case nil => simp at hr
  rcases r with _ | ⟨a3, r⟩
  case nil => simp at hr
  rcases r with _ | ⟨a4, r⟩
  case nil => simp at hr
  rcases r with _ | ⟨a5, r⟩
  case nil => simp at hr
  rcases r with _ | ⟨a6, r⟩
  case nil => simp at hr
  rcases r with _ | ⟨a7, r⟩
  case nil => simp at hr
  rcases r with _ | ⟨a8, r⟩
  case nil => simp at hr
  rcases r with _ | ⟨a9, r⟩
  case cons => simp at hr
  simp only [avg3, get3, idx3, range_three, List.flatMap_cons, List.flatMap_nil,
    List.append_nil, List.cons_append, List.nil_append, l1norm, List.map_cons,
    List.map_nil, List.sum_cons, List.sum_nil, add_zero]
  norm_num [abs_div_four]
  obtain ⟨p, hp9, hp⟩ := hp
  obtain ⟨q, hq9, hq⟩ := hq
  have nb0 : |a3 + a6 + a1 + a2| ≤ |a3| + |a6| + |a1| + |a2| := abs4_le _ _ _ _
  have nb1 : |a4 + a7 + a2 + a0| ≤ |a4| + |a7| + |a2| + |a0| := abs4_le _ _ _ _
  have nb2 : |a5 + a8 + a0 + a1| ≤ |a5| + |a8| + |a0| + |a1| := abs4_le _ _ _ _
  have nb3 : |a6 + a0 + a4 + a5| ≤ |a6| + |a0| + |a4| + |a5| := abs4_le _ _ _ _
  have nb4 : |a7 + a1 + a5 + a3| ≤ |a7| + |a1| + |a5| + |a3| := abs4_le _ _ _ _
  have nb5 : |a8 + a2 + a3 + a4| ≤ |a8| + |a2| + |a3| + |a4| := abs4_le _ _ _ _
  have nb6 : |a0 + a3 + a7 + a8| ≤ |a0| + |a3| + |a7| + |a8| := abs4_le _ _ _ _
  have nb7 : |a1 + a4 + a8 + a6| ≤ |a1| + |a4| + |a8| + |a6| := abs4_le _ _ _ _
  have nb8 : |a2 + a5 + a6 + a7| ≤ |a2| + |a5| + |a6| + |a7| := abs4_le _ _ _ _
  interval_cases p <;> interval_cases q <;> simp at hp hq
  · linarith [nb0, nb1, nb2, nb3, nb4, nb5, nb6, nb7, nb8,
      abs4_lt a4 a7 a2 a0 a0 a0 (by simp) (by simp) hp hq]
  · linarith [nb0, nb1, nb2, nb3, nb4, nb5, nb6, nb7, nb8,
      abs4_lt a5 a8 a0 a1 a0 a1 (by simp) (by simp) hp hq]
  · linarith [nb0, nb1, nb2, nb3, nb4, nb5, nb6, nb7, nb8,
      abs4_lt a4 a7 a2 a0 a0 a2 (by simp) (by simp) hp hq]
  · linarith [nb0, nb1, nb2, nb3, nb4, nb5, nb6, nb7, nb8,
      abs4_lt a0 a3 a7 a8 a0 a3 (by simp) (by simp) hp hq]
  · linarith [nb0, nb1, nb2, nb3, nb4, nb5, nb6, nb7, nb8,
      abs4_lt a4 a7 a2 a0 a0 a4 (by simp) (by simp) hp hq]
  · linarith [nb0, nb1, nb2, nb3, nb4, nb5, nb6, nb7, nb8,
      abs4_lt a5 a8 a0 a1 a0 a5 (by simp) (by simp) hp hq]
  · linarith [nb0, nb1, nb2, nb3, nb4, nb5, nb6, nb7, nb8,
      abs4_lt a6 a0 a4 a5 a0 a6 (by simp) (by simp) hp hq]
  · linarith [nb0, nb1, nb2, nb3, nb4, nb5, nb6, nb7, nb8,
      abs4_lt a4 a7 a2 a0 a0 a7 (by simp) (by simp) hp hq]
  · linarith [nb0, nb1, nb2, nb3, nb4, nb5, nb6, nb7, nb8,
      abs4_lt a5 a8 a0 a1 a0 a8 (by simp) (by simp) hp hq]
  · linarith [nb0, nb1, nb2, nb3, nb4, nb5, nb6, nb7, nb8,
      abs4_lt a5 a8 a0 a1 a1 a0 (by simp) (by simp) hp hq]
  · linarith [nb0, nb1, nb2, nb3, nb4, nb5, nb6, nb7, nb8,
      abs4_lt a3 a6 a1 a2 a1 a1 (by simp) (by simp) hp hq]
  · linarith [nb0, nb1, nb2, nb3, nb4, nb5, nb6, nb7, nb8,
      abs4_lt a3 a6 a1 a2 a1 a2 (by simp) (by simp) hp hq]
  · linarith [nb0, nb1, nb2, nb3, nb4, nb5, nb6, nb7, nb8,
      abs4_lt a3 a6 a1 a2 a1 a3 (by simp) (by simp) hp hq]
  · linarith [nb0, nb1, nb2, nb3, nb4, nb5, nb6, nb7, nb8,
      abs4_lt a1 a4 a8 a6 a1 a4 (by simp) (by simp) hp hq]
  · linarith [nb0, nb1, nb2, nb3, nb4, nb5, nb6, nb7, nb8,
      abs4_lt a5 a8 a0 a1 a1 a5 (by simp) (by simp) hp hq]
  · linarith [nb0, nb1, nb2, nb3, nb4, nb5, nb6, nb7, nb8,
      abs4_lt a3 a6 a1 a2 a1 a6 (by simp) (by simp) hp hq]
  · linarith [nb0, nb1, nb2, nb3, nb4, nb5, nb6, nb7, nb8,
      abs4_lt a7 a1 a5 a3 a1 a7 (by simp) (by simp) hp hq]
  · linarith [nb0, nb1, nb2, nb3, nb4, nb5, nb6, nb7, nb8,
      abs4_lt a5 a8 a0 a1 a1 a8 (by simp) (by simp) hp hq]
  · linarith [nb0, nb1, nb2, nb3, nb4, nb5, nb6, nb7, nb8,
      abs4_lt a4 a7 a2 a0 a2 a0 (by simp) (by simp) hp hq]
  · linarith [nb0, nb1, nb2, nb3, nb4, nb5, nb6, nb7, nb8,
      abs4_lt a3 a6 a1 a2 a2 a1 (by simp) (by simp) hp hq]
  · linarith [nb0, nb1, nb2, nb3, nb4, nb5, nb6, nb7, nb8,
      abs4_lt a3 a6 a1 a2 a2 a2 (by simp) (by simp) hp hq]
  · linarith [nb0, nb1, nb2, nb3, nb4, nb5, nb6, nb7, nb8,
      abs4_lt a3 a6 a1 a2 a2 a3 (by simp) (by simp) hp hq]
  · linarith [nb0, nb1, nb2, nb3, nb4, nb5, nb6, nb7, nb8,
      abs4_lt a4 a7 a2 a0 a2 a4 (by simp) (by simp) hp hq]
  · linarith [nb0, nb1, nb2, nb3, nb4, nb5, nb6, nb7, nb8,
      abs4_lt a2 a5 a6 a7 a2 a5 (by simp) (by simp) hp hq]
  · linarith [nb0, nb1, nb2, nb3, nb4, nb5, nb6, nb7, nb8,
      abs4_lt a3 a6 a1 a2 a2 a6 (by simp) (by simp) hp hq]
  · linarith [nb0, nb1, nb2, nb3, nb4, nb5, nb6, nb7, nb8,
      abs4_lt a4 a7 a2 a0 a2 a7 (by simp) (by simp) hp hq]
  · linarith [nb0, nb1, nb2, nb3, nb4, nb5, nb6, nb7, nb8,
      abs4_lt a8 a2 a3 a4 a2 a8 (by simp) (by simp) hp hq]
  · linarith [nb0, nb1, nb2, nb3, nb4, nb5, nb6, nb7, nb8,
      abs4_lt a0 a3 a7 a8 a3 a0 (by simp) (by simp) hp hq]
  · linarith [nb0, nb1, nb2, nb3, nb4, nb5, nb6, nb7, nb8,
      abs4_lt a3 a6 a1 a2 a3 a1 (by simp) (by simp) hp hq]
  · linarith [nb0, nb1, nb2, nb3, nb4, nb5, nb6, nb7, nb8,
      abs4_lt a3 a6 a1 a2 a3 a2 (by simp) (by simp) hp hq]
  · linarith [nb0, nb1, nb2, nb3, nb4, nb5, nb6, nb7, nb8,
      abs4_lt a3 a6 a1 a2 a3 a3 (by simp) (by simp) hp hq]
  · linarith [nb0, nb1, nb2, nb3, nb4, nb5, nb6, nb7, nb8,
      abs4_lt a8 a2 a3 a4 a3 a4 (by simp) (by simp) hp hq]
  · linarith [nb0, nb1, nb2, nb3, nb4, nb5, nb6, nb7, nb8,
      abs4_lt a7 a1 a5 a3 a3 a5 (by simp) (by simp) hp hq]
  · linarith [nb0, nb1, nb2, nb3, nb4, nb5, nb6, nb7, nb8,
      abs4_lt a3 a6 a1 a2 a3 a6 (by simp) (by simp) hp hq]
  · linarith [nb0, nb1, nb2, nb3, nb4, nb5, nb6, nb7, nb8,
      abs4_lt a7 a1 a5 a3 a3 a7 (by simp) (by simp) hp hq]
  · linarith [nb0, nb1, nb2, nb3, nb4, nb5, nb6, nb7, nb8,
      abs4_lt a8 a2 a3 a4 a3 a8 (by simp) (by simp) hp hq]
  · linarith [nb0, nb1, nb2, nb3, nb4, nb5, nb6, nb7, nb8,
      abs4_lt a4 a7 a2 a0 a4 a0 (by simp) (by simp) hp hq]
  · linarith [nb0, nb1, nb2, nb3, nb4, nb5, nb6, nb7, nb8,
      abs4_lt a1 a4 a8 a6 a4 a1 (by simp) (by simp) hp hq]
  · linarith [nb0, nb1, nb2, nb3, nb4, nb5, nb6, nb7, nb8,
      abs4_lt a4 a7 a2 a0 a4 a2 (by simp) (by simp) hp hq]
  · linarith [nb0, nb1, nb2, nb3, nb4, nb5, nb6, nb7, nb8,
      abs4_lt a8 a2 a3 a4 a4 a3 (by simp) (by simp) hp hq]
  · linarith [nb0, nb1, nb2, nb3, nb4, nb5, nb6, nb7, nb8,
      abs4_lt a4 a7 a2 a0 a4 a4 (by simp) (by simp) hp hq]
  · linarith [nb0, nb1, nb2, nb3, nb4, nb5, nb6, nb7, nb8,
      abs4_lt a6 a0 a4 a5 a4 a5 (by simp) (by simp) hp hq]
  · linarith [nb0, nb1, nb2, nb3, nb4, nb5, nb6, nb7, nb8,
      abs4_lt a6 a0 a4 a5 a4 a6 (by simp) (by simp) hp hq]
  · linarith [nb0, nb1, nb2, nb3, nb4, nb5, nb6, nb7, nb8,
      abs4_lt a4 a7 a2 a0 a4 a7 (by simp) (by simp) hp hq]
  · linarith [nb0, nb1, nb2, nb3, nb4, nb5, nb6, nb7, nb8,
      abs4_lt a8 a2 a3 a4 a4 a8 (by simp) (by simp) hp hq]
  · linarith [nb0, nb1, nb2, nb3, nb4, nb5, nb6, nb7, nb8,
      abs4_lt a5 a8 a0 a1 a5 a0 (by simp) (by simp) hp hq]
  · linarith [nb0, nb1, nb2, nb3, nb4, nb5, nb6, nb7, nb8,
      abs4_lt a5 a8 a0 a1 a5 a1 (by simp) (by simp) hp hq]
  · linarith [nb0, nb1, nb2, nb3, nb4, nb5, nb6, nb7, nb8,
      abs4_lt a2 a5 a6 a7 a5 a2 (by simp) (by simp) hp hq]
  · linarith [nb0, nb1, nb2, nb3, nb4, nb5, nb6, nb7, nb8,
      abs4_lt a7 a1 a5 a3 a5 a3 (by simp) (by simp) hp hq]
  · linarith [nb0, nb1, nb2, nb3, nb4, nb5, nb6, nb7, nb8,
      abs4_lt a6 a0 a4 a5 a5 a4 (by simp) (by simp) hp hq]
  · linarith [nb0, nb1, nb2, nb3, nb4, nb5, nb6, nb7, nb8,
      abs4_lt a5 a8 a0 a1 a5 a5 (by simp) (by simp) hp hq]
  · linarith [nb0, nb1, nb2, nb3, nb4, nb5, nb6, nb7, nb8,
      abs4_lt a6 a0 a4 a5 a5 a6 (by simp) (by simp) hp hq]
  · linarith [nb0, nb1, nb2, nb3, nb4, nb5, nb6, nb7, nb8,
      abs4_lt a7 a1 a5 a3 a5 a7 (by simp) (by simp) hp hq]
  · linarith [nb0, nb1, nb2, nb3, nb4, nb5, nb6, nb7, nb8,
      abs4_lt a5 a8 a0 a1 a5 a8 (by simp) (by simp) hp hq]
  · linarith [nb0, nb1, nb2, nb3, nb4, nb5, nb6, nb7, nb8,
      abs4_lt a6 a0 a4 a5 a6 a0 (by simp) (by simp) hp hq]
  · linarith [nb0, nb1, nb2, nb3, nb4, nb5, nb6, nb7, nb8,
      abs4_lt a3 a6 a1 a2 a6 a1 (by simp) (by simp) hp hq]
  · linarith [nb0, nb1, nb2, nb3, nb4, nb5, nb6, nb7, nb8,
      abs4_lt a3 a6 a1 a2 a6 a2 (by simp) (by simp) hp hq]
  · linarith [nb0, nb1, nb2, nb3, nb4, nb5, nb6, nb7, nb8,
      abs4_lt a3 a6 a1 a2 a6 a3 (by simp) (by simp) hp hq]
  · linarith [nb0, nb1, nb2, nb3, nb4, nb5, nb6, nb7, nb8,
      abs4_lt a6 a0 a4 a5 a6 a4 (by simp) (by simp) hp hq]
  · linarith [nb0, nb1, nb2, nb3, nb4, nb5, nb6, nb7, nb8,
      abs4_lt a6 a0 a4 a5 a6 a5 (by simp) (by simp) hp hq]
  · linarith [nb0, nb1, nb2, nb3, nb4, nb5, nb6, nb7, nb8,
      abs4_lt a3 a6 a1 a2 a6 a6 (by simp) (by simp) hp hq]
  · linarith [nb0, nb1, nb2, nb3, nb4, nb5, nb6, nb7, nb8,
      abs4_lt a2 a5 a6 a7 a6 a7 (by simp) (by simp) hp hq]
  · linarith [nb0, nb1, nb2, nb3, nb4, nb5, nb6, nb7, nb8,
      abs4_lt a1 a4 a8 a6 a6 a8 (by simp) (by simp) hp hq]
  · linarith [nb0, nb1, nb2, nb3, nb4, nb5, nb6, nb7, nb8,
      abs4_lt a4 a7 a2 a0 a7 a0 (by simp) (by simp) hp hq]
  · linarith [nb0, nb1, nb2, nb3, nb4, nb5, nb6, nb7, nb8,
      abs4_lt a7 a1 a5 a3 a7 a1 (by simp) (by simp) hp hq]
  · linarith [nb0, nb1, nb2, nb3, nb4, nb5, nb6, nb7, nb8,
      abs4_lt a4 a7 a2 a0 a7 a2 (by simp) (by simp) hp hq]
  · linarith [nb0, nb1, nb2, nb3, nb4, nb5, nb6, nb7, nb8,
      abs4_lt a7 a1 a5 a3 a7 a3 (by simp) (by simp) hp hq]
  · linarith [nb0, nb1, nb2, nb3, nb4, nb5, nb6, nb7, nb8,
      abs4_lt a4 a7 a2 a0 a7 a4 (by simp) (by simp) hp hq]
  · linarith [nb0, nb1, nb2, nb3, nb4, nb5, nb6, nb7, nb8,
      abs4_lt a7 a1 a5 a3 a7 a5 (by simp) (by simp) hp hq]
  · linarith [nb0, nb1, nb2, nb3, nb4, nb5, nb6, nb7, nb8,
      abs4_lt a2 a5 a6 a7 a7 a6 (by simp) (by simp) hp hq]
  · linarith [nb0, nb1, nb2, nb3, nb4, nb5, nb6, nb7, nb8,
      abs4_lt a4 a7 a2 a0 a7 a7 (by simp) (by simp) hp hq]
  · linarith [nb0, nb1, nb2, nb3, nb4, nb5, nb6, nb7, nb8,
      abs4_lt a0 a3 a7 a8 a7 a8 (by simp) (by simp) hp hq]
  · linarith [nb0, nb1, nb2, nb3, nb4, nb5, nb6, nb7, nb8,
      abs4_lt a5 a8 a0 a1 a8 a0 (by simp) (by simp) hp hq]
  · linarith [nb0, nb1, nb2, nb3, nb4, nb5, nb6, nb7, nb8,
      abs4_lt a5 a8 a0 a1 a8 a1 (by simp) (by simp) hp hq]
  · linarith [nb0, nb1, nb2, nb3, nb4, nb5, nb6, nb7, nb8,
      abs4_lt a8 a2 a3 a4 a8 a2 (by simp) (by simp) hp hq]
  · linarith [nb0, nb1, nb2, nb3, nb4, nb5, nb6, nb7, nb8,
      abs4_lt a8 a2 a3 a4 a8 a3 (by simp) (by simp) hp hq]
  · linarith [nb0, nb1, nb2, nb3, nb4, nb5, nb6, nb7, nb8,
      abs4_lt a8 a2 a3 a4 a8 a4 (by simp) (by simp) hp hq]
  · linarith [nb0, nb1, nb2, nb3, nb4, nb5, nb6, nb7, nb8,
      abs4_lt a5 a8 a0 a1 a8 a5 (by simp) (by simp) hp hq]
  · linarith [nb0, nb1, nb2, nb3, nb4, nb5, nb6, nb7, nb8,
      abs4_lt a1 a4 a8 a6 a8 a6 (by simp) (by simp) hp hq]
  · linarith [nb0, nb1, nb2, nb3, nb4, nb5, nb6, nb7, nb8,
      abs4_lt a0 a3 a7 a8 a8 a7 (by simp) (by simp) hp hq]
  · linarith [nb0, nb1, nb2, nb3, nb4, nb5, nb6, nb7, nb8,
      abs4_lt a5 a8 a0 a1 a8 a8 (by simp) (by simp) hp hq]

theorem div_subtractGradient3 (u v p : List ℚ) :
    divergence3 (subtractGradient3 u v p).1 (subtractGradient3 u v p).2 =
      residual3 (divergence3 u v) p := by
  simp only [divergence3, subtractGradient3, residual3, get3, idx3, range_three,
    List.flatMap_cons, List.flatMap_nil, List.append_nil, List.cons_append, List.nil_append]
  norm_num
  refine ⟨?_, ?_, ?_, ?_, ?_, ?_, ?_, ?_, ?_⟩ <;> ring

theorem residual3_jacobi (d p : List ℚ) :
    residual3 d (jacobiStep d p) = avg3 (residual3 d p) := by
  simp only [residual3, jacobiStep, avg3, get3, idx3, range_three,
    List.flatMap_cons, List.flatMap_nil, List.append_nil, List.cons_append, List.nil_append]
  norm_num
  refine ⟨?_, ?_, ?_, ?_, ?_, ?_, ?_, ?_, ?_⟩ <;> ring

theorem residual3_zero_pressure (u v : List ℚ) :
    residual3 (divergence3 u v) (List.replicate 9 0) = divergence3 u v := by
  simp only [residual3, divergence3, get3, idx3, range_three, List.flatMap_cons,
    List.flatMap_nil, List.append_nil, List.cons_append, List.nil_append]
  norm_num

theorem sum9_divergence3 (u v : List ℚ) : sum9 (divergence3 u v) = 0 := by
  simp only [sum9, divergence3, get3, idx3, range_three, List.flatMap_cons, List.flatMap_nil,
    List.append_nil, List.cons_append, List.nil_append]
  norm_num
  ring

theorem sum9_avg3 (r : List ℚ) : sum9 (avg3 r) = sum9 r := by
  simp only [sum9, avg3, get3, idx3, range_three, List.flatMap_cons, List.flatMap_nil,
    List.append_nil, List.cons_append, List.nil_append]
  norm_num
  ring

theorem length_avg3 (r : List ℚ) : (avg3 r).length = 9 := rfl

theorem length_divergence3 (u v : List ℚ) : (divergence3 u v).length = 9 := rfl

theorem avg3_replicate_zero : avg3 (List.replicate 9 0) = List.replicate 9 0 := by
  simp only [avg3, get3, idx3, range_three, List.flatMap_cons, List.flatMap_nil,
    List.append_nil, List.cons_append, List.nil_append]
  norm_num
  rfl

theorem l1norm_replicate_zero : l1norm (List.replicate 9 0) = 0 := by
  norm_num [l1norm, List.replicate]

theorem avg3_inj_zero (r : List ℚ) (hr : r.length = 9)
    (h : avg3 r = List.replicate 9 0) : r = List.replicate 9 0 := by
  rcases r with _ | ⟨a0, r⟩
  case nil => simp at hr
  rcases r with _ | ⟨a1, r⟩
  case nil => simp at hr
  rcases r with _ | ⟨a2, r⟩
  case nil => simp at hr
  rcases r with _ | ⟨a3, r⟩
  case nil => simp at hr
  rcases r with _ | ⟨a4, r⟩
  case nil => simp at hr
  rcases r with _ | ⟨a5, r⟩
  case nil => simp at hr
  rcases r with _ | ⟨a6, r⟩
  case nil => simp at hr
  rcases r with _ | ⟨a7, r⟩
  case nil => simp at hr
  rcases r with _ | ⟨a8, r⟩
  case nil => simp at hr
  rcases r with _ | ⟨a9, r⟩
  case cons => simp at hr
  simp only [avg3, get3, idx3, range_three, List.flatMap_cons, List.flatMap_nil,
    List.append_nil, List.cons_append, List.nil_append, List.replicate] at h ⊢
  norm_num at h ⊢
  obtain ⟨h0, h1, h2, h3, h4, h5, h6, h7, h8⟩ := h
  refine ⟨by linarith, by linarith, by linarith, by linarith, by linarith, by linarith,
    by linarith, by linarith, by linarith⟩

theorem exists_pos_neg (r : List ℚ) (hr : r.length = 9) (hsum : sum9 r = 0)
    (hne : r ≠ List.replicate 9 0) :
    (∃ p : ℕ, p < 9 ∧ 0 < r.getD p 0) ∧ (∃ q : ℕ, q < 9 ∧ r.getD q 0 < 0) := by
  rcases r with _ | ⟨a0, r⟩
  case nil => simp at hr
  rcases r with _ | ⟨a1, r⟩
  case nil => simp at hr
  rcases r with _ | ⟨a2, r⟩
  case nil => simp at hr
  rcases r with _ | ⟨a3, r⟩
  case nil => simp at hr
  rcases r with _ | ⟨a4, r⟩
  case nil => simp at hr
  rcases r with _ | ⟨a5, r⟩
  case nil => simp at hr
  rcases r with _ | ⟨a6, r⟩
  case nil => simp at hr
  rcases r with _ | ⟨a7, r⟩
  case nil => simp at hr
  rcases r with _ | ⟨a8, r⟩
  case nil => simp at hr
  rcases r with _ | ⟨a9, r⟩
  case cons => simp at hr
  simp only [sum9] at hsum
  norm_num at hsum
  simp only [List.replicate, ne_eq, List.cons.injEq, and_true] at hne
  by_cases hz : a0 = 0 ∧ a1 = 0 ∧ a2 = 0 ∧ a3 = 0 ∧ a4 = 0 ∧ a5 = 0 ∧ a6 = 0 ∧ a7 = 0 ∧ a8 = 0
  · exact absurd hz hne
  constructor
  · by_contra hnp
    push_neg at hnp
    have h0 := hnp 0 (by norm_num)
    have h1 := hnp 1 (by norm_num)
    have h2 := hnp 2 (by norm_num)
    have h3 := hnp 3 (by norm_num)
    have h4 := hnp 4 (by norm_num)
    have h5 := hnp 5 (by norm_num)
    have h6 := hnp 6 (by norm_num)
    have h7 := hnp 7 (by norm_num)
    have h8 := hnp 8 (by norm_num)
    norm_num at h0 h1 h2 h3 h4 h5 h6 h7 h8
    exact hz ⟨by linarith, by linarith, by linarith, by linarith, by linarith, by linarith,
      by linarith, by linarith, by linarith⟩
  · by_contra hnq
    push_neg at hnq
    have h0 := hnq 0 (by norm_num)
    have h1 := hnq 1 (by norm_num)
    have h2 := hnq 2 (by norm_num)
    have h3 := hnq 3 (by norm_num)
    have h4 := hnq 4 (by norm_num)
    have h5 := hnq 5 (by norm_num)
    have h6 := hnq 6 (by norm_num)
    have h7 := hnq 7 (by norm_num)
    have h8 := hnq 8 (by norm_num)
    norm_num at h0 h1 h2 h3 h4 h5 h6 h7 h8
    exact hz ⟨by linarith, by linarith, by linarith, by linarith, by linarith, by linarith,
      by linarith, by linarith, by linarith⟩

theorem divAfter_eq_residual (k : ℕ) (u v : List ℚ) :
    divAfter k u v = residual3 (divergence3 u v) (solvePressure3 k (divergence3 u v)) :=
  div_subtractGradient3 u v _

theorem divAfter_zero (u v : List ℚ) : divAfter 0 u v = divergence3 u v := by
  rw [divAfter_eq_residual]
  exact residual3_zero_pressure u v

theorem divAfter_succ (k : ℕ) (u v : List ℚ) :
    divAfter (k + 1) u v = avg3 (divAfter k u v) := by
  rw [divAfter_eq_residual, divAfter_eq_residual]
  exact residual3_jacobi (divergence3 u v) (solvePressure3 k (divergence3 u v))

theorem divNormAfter_eq (k : ℕ) (u v : List ℚ) :
    divNormAfter k u v = l1norm (divAfter k u v) := rfl

theorem divAfter_props (u v : List ℚ) (k : ℕ) :
    (divAfter k u v).length = 9 ∧ sum9 (divAfter k u v) = 0 ∧
      (divergence3 u v ≠ List.replicate 9 0 → divAfter k u v ≠ List.replicate 9 0) := by
  induction k with
  | zero =>
      rw [divAfter_zero]
      exact ⟨length_divergence3 u v, sum9_divergence3 u v, fun h => h⟩
  | succ k ih =>
      obtain ⟨hlen, hsum, hne⟩ := ih
      rw [divAfter_succ]
      refine ⟨length_avg3 _, ?_, ?_⟩
      · rw [sum9_avg3]
        exact hsum
      · intro hd hz
        exact hne hd (avg3_inj_zero _ hlen hz)

theorem divNormAfter_strict_succ (u v : List ℚ) (k : ℕ)
    (hd : divergence3 u v ≠ List.replicate 9 0) :
    divNormAfter (k + 1) u v < divNormAfter k u v := by
  obtain ⟨hlen, hsum, hne⟩ := divAfter_props u v k
  obtain ⟨hp, hq⟩ := exists_pos_neg _ hlen hsum (hne hd)
  rw [divNormAfter_eq, divNormAfter_eq, divAfter_succ]
  exact l1_avg3_lt _ hlen hp hq

theorem divNormAfter_zero_field (u v : List ℚ)
    (hd : divergence3 u v = List.replicate 9 0) (k : ℕ) :
    divNormAfter k u v = 0 := by
  have hz : divAfter k u v = List.replicate 9 0 := by
    induction k with
    | zero => rw [divAfter_zero, hd]
    | succ k ih => rw [divAfter_succ, ih, avg3_replicate_zero]
  rw [divNormAfter_eq, hz, l1norm_replicate_zero]

theorem divNormAfter_strictAnti (u v : List ℚ)
    (hd : divergence3 u v ≠ List.replicate 9 0) :
    StrictAnti (fun k => divNormAfter k u v) :=
  strictAnti_nat_of_succ_lt (fun k => divNormAfter_strict_succ u v k hd)

/-- C1: On every fixed simulation step emitted by the clock, the solver
pipeline of `Flux::compute` executes all eight stages unconditionally and in
the fixed order advect forward → advect reverse → adjust advection →
diffuse → inject noise forcing → calculate divergence → solve pressure →
subtract gradient (preceded by the per-step noise buffer update and noise
generation), with no stage skipped: the trace of one animation tick is
exactly the per-step stage list repeated once per emitted fixed step. -/
theorem C1_pipeline_stages (ft : ℚ) (st : ClockState) (ts : ℚ) :
    (computeTick ft st ts).trace =
      List.flatten (List.replicate (computeTick ft st ts).steps
        [Stage.noiseUpdateBuffers, Stage.noiseGenerate,
         Stage.advectForward, Stage.advectReverse, Stage.adjustAdvection,
         Stage.diffuse, Stage.injectNoise,
         Stage.calculateDivergence, Stage.solvePressure,
         Stage.subtractGradient]) := by
  exact fluidLoop_trace ft (st.acc + min MAX_FRAME_TIME ((ts - st.last) / 1000))

/-- C3: For a tick of `Flux::compute` with a non-decreasing timestamp and a
nonnegative elapsed timer, the per-tick delta (the program's
`min(MAX_FRAME_TIME, (timestamp - last_timestamp)/1000)`) equals
`clamp(0, MAX_FRAME_TIME, (timestamp - last_timestamp)/1000)`; the elapsed
timer accumulates the delta and wraps by exactly one subtraction of
`MAX_ELAPSED_TIME` exactly when it reaches `MAX_ELAPSED_TIME`, never going
negative; and the tick emits `⌊accumulator / fluid_timestep⌋` fixed steps —
in particular zero steps while the accumulator is below `fluid_timestep`. -/
theorem C3_clock_tick (ft : ℚ) (hft : 0 < ft) (st : ClockState) (ts : ℚ)
    (hts : st.last ≤ ts) (hel : 0 ≤ st.elapsed) :
    min MAX_FRAME_TIME ((ts - st.last) / 1000) =
      max 0 (min MAX_FRAME_TIME ((ts - st.last) / 1000)) ∧
    (computeTick ft st ts).state.elapsed =
      (if MAX_ELAPSED_TIME ≤ st.elapsed + min MAX_FRAME_TIME ((ts - st.last) / 1000) then
        st.elapsed + min MAX_FRAME_TIME ((ts - st.last) / 1000) - MAX_ELAPSED_TIME
      else st.elapsed + min MAX_FRAME_TIME ((ts - st.last) / 1000)) ∧
    0 ≤ (computeTick ft st ts).state.elapsed ∧
    (computeTick ft st ts).steps =
      (⌊(st.acc + min MAX_FRAME_TIME ((ts - st.last) / 1000)) / ft⌋).toNat ∧
    (st.acc + min MAX_FRAME_TIME ((ts - st.last) / 1000) < ft →
      (computeTick ft st ts).steps = 0) := by
  have hdt : 0 ≤ min MAX_FRAME_TIME ((ts - st.last) / 1000) := by
    apply le_min
    · norm_num [MAX_FRAME_TIME]
    · exact div_nonneg (by linarith) (by norm_num)
  set dt := min MAX_FRAME_TIME ((ts - st.last) / 1000) with hdtdef
  refine ⟨(max_eq_right hdt).symm, ?_, ?_, ?_, ?_⟩
  · show (if 0 ≤ st.elapsed + dt - MAX_ELAPSED_TIME then st.elapsed + dt - MAX_ELAPSED_TIME
        else st.elapsed + dt) = _
    rcases le_or_lt MAX_ELAPSED_TIME (st.elapsed + dt) with h | h
    · rw [if_pos (by linarith), if_pos h]
    · rw [if_neg (by linarith), if_neg (not_le.mpr h)]
  · show 0 ≤ (if 0 ≤ st.elapsed + dt - MAX_ELAPSED_TIME then st.elapsed + dt - MAX_ELAPSED_TIME
        else st.elapsed + dt)
    split
    · linarith
    · linarith
  · exact fluidLoop_count ft hft (st.acc + dt)
  · intro hlt
    show (fluidLoop ft (st.acc + dt)).1 = 0
    rw [fluidLoop_count ft hft (st.acc + dt)]
    have hq : (st.acc + dt) / ft < 1 := (div_lt_one hft).mpr hlt
    have : ⌊(st.acc + dt) / ft⌋ < 1 := by
      rw [Int.floor_lt]
      exact_mod_cast hq
    omega

/-- C9 counterexample: the claim predicts the basepoint of cell
`(u, v) = (1, 0)` to be `1 * (1 / columns)` with `columns` the stored
dimension; on the 4×4 grid produced by `Grid::new(30, 30, 10)` the stored
`columns` is 4 but the generated coordinate is `1/3` (the spacing uses the
pre-increment count), so the claim fails. -/
theorem C9_counterexample :
    ¬ ((Grid.new 30 30 10).basepoints.getD 2 0 =
        1 / ((Grid.new 30 30 10).columns : ℚ)) := by
  with_unfolding_all decide

/-- C9 (amended): `Grid::new` generates basepoints in row-major order (rows
outer, columns inner), one `(u, v)` pair per cell, with the basepoint of
cell `(u, v)` equal to `(u / (columns - 1), v / (rows - 1))` where `columns`
and `rows` are the Grid's stored (post-increment) dimensions — i.e. the
deterministic spacing is `1/(columns-1) × 1/(rows-1)`, not
`1/columns × 1/rows`. -/
theorem C9_basepoints_amended (w h s : ℕ)
    (hc : 1 ≤ ⌊(w : ℚ) / (s : ℚ)⌋)
    (hr : 1 ≤ ⌊((h : ℚ) / (w : ℚ)) * ((⌊(w : ℚ) / (s : ℚ)⌋ : ℤ) : ℚ)⌋) :
    (Grid.new w h s).basepoints =
      (List.range (Grid.new w h s).rows).flatMap fun v =>
        (List.range (Grid.new w h s).columns).flatMap fun u =>
          [(u : ℚ) * (1 / (((Grid.new w h s).columns : ℚ) - 1)),
           (v : ℚ) * (1 / (((Grid.new w h s).rows : ℚ) - 1))] := by
  have ec := cast_toNat_succ_sub_one ⌊(w : ℚ) / (s : ℚ)⌋ (by omega)
  have er := cast_toNat_succ_sub_one
    ⌊((h : ℚ) / (w : ℚ)) * ((⌊(w : ℚ) / (s : ℚ)⌋ : ℤ) : ℚ)⌋ (by omega)
  simp only [Grid.new, ec, er]

/-- Witness for C9 (amended): the `(30, 30, 10)` grid, whose basepoints are
exactly the row-major `u/3`, `v/3` pairs for the stored 4×4 grid. -/
theorem C9_basepoints_amended_witness :
    ((1 : ℤ) ≤ ⌊(30 : ℚ) / (10 : ℚ)⌋ ∧
     (1 : ℤ) ≤ ⌊((30 : ℚ) / (30 : ℚ)) * ((⌊(30 : ℚ) / (10 : ℚ)⌋ : ℤ) : ℚ)⌋) ∧
    (Grid.new 30 30 10).basepoints =
      ((List.range (Grid.new 30 30 10).rows).flatMap fun v =>
        (List.range (Grid.new 30 30 10).columns).flatMap fun u =>
          [(u : ℚ) * (1 / (((Grid.new 30 30 10).columns : ℚ) - 1)),
           (v : ℚ) * (1 / (((Grid.new 30 30 10).rows : ℚ) - 1))]) :=
  ⟨by constructor <;> with_unfolding_all decide,
   C9_basepoints_amended 30 30 10 (by with_unfolding_all decide)
     (by with_unfolding_all decide)⟩

/-- C7: For positive inputs, `clamp_logical_size` returns a size whose
smaller dimension is at least 800; the two outputs are within one unit of an
exact rescaling of the input (the floors of `w * scale` and `h * scale` for
the same factor `scale`), so the aspect ratio is preserved up to that
rounding — quantified here by the cross-product bound
`-h < c₁ * h - c₂ * w < w`; inputs with both dimensions already at least 800
are returned unchanged; and the spec's examples hold:
`(414, 896) ↦ (800, 1731)`, `(1280, 800) ↦ (1280, 800)`,
`(7680, 1440) ↦ (7680, 1440)`. -/
theorem C7_clamp_logical_size :
    clampLogicalSize 414 896 = (800, 1731) ∧
    clampLogicalSize 1280 800 = (1280, 800) ∧
    clampLogicalSize 7680 1440 = (7680, 1440) ∧
    ∀ w h : ℕ, 1 ≤ w → 1 ≤ h →
      (800 ≤ min (clampLogicalSize w h).1 (clampLogicalSize w h).2) ∧
      (((clampLogicalSize w h).1 : ℚ) * h - ((clampLogicalSize w h).2 : ℚ) * w < w ∧
        -(h : ℚ) < ((clampLogicalSize w h).1 : ℚ) * h - ((clampLogicalSize w h).2 : ℚ) * w) ∧
      (800 ≤ w → 800 ≤ h → clampLogicalSize w h = (w, h)) := by
  refine ⟨by with_unfolding_all decide, by with_unfolding_all decide,
    by with_unfolding_all decide, ?_⟩
  intro w h hw hh
  have hw0 : (0 : ℚ) < w := by exact_mod_cast hw
  have hh0 : (0 : ℚ) < h := by exact_mod_cast hh
  set scale := max (max ((800 : ℚ) / w) ((800 : ℚ) / h)) 1 with hscale
  have hsw : (800 : ℚ) / w ≤ scale := le_max_of_le_left (le_max_left _ _)
  have hsh : (800 : ℚ) / h ≤ scale := le_max_of_le_left (le_max_right _ _)
  have hs1 : (1 : ℚ) ≤ scale := le_max_right _ _
  have hwm : (800 : ℚ) ≤ (w : ℚ) * scale := by
    calc (800 : ℚ) = (800 / w) * w := by field_simp
    _ ≤ scale * w := mul_le_mul_of_nonneg_right hsw (le_of_lt hw0)
    _ = (w : ℚ) * scale := mul_comm _ _
  have hhm : (800 : ℚ) ≤ (h : ℚ) * scale := by
    calc (800 : ℚ) = (800 / h) * h := by field_simp
    _ ≤ scale * h := mul_le_mul_of_nonneg_right hsh (le_of_lt hh0)
    _ = (h : ℚ) * scale := mul_comm _ _
  have hfw : (800 : ℤ) ≤ ⌊(w : ℚ) * scale⌋ := by
    rw [Int.le_floor]
    exact_mod_cast hwm
  have hfh : (800 : ℤ) ≤ ⌊(h : ℚ) * scale⌋ := by
    rw [Int.le_floor]
    exact_mod_cast hhm
  have hc1 : (clampLogicalSize w h).1 = (⌊(w : ℚ) * scale⌋).toNat := rfl
  have hc2 : (clampLogicalSize w h).2 = (⌊(h : ℚ) * scale⌋).toNat := rfl
  have hc1q : ((clampLogicalSize w h).1 : ℚ) = ((⌊(w : ℚ) * scale⌋ : ℤ) : ℚ) := by
    rw [hc1]
    exact_mod_cast Int.toNat_of_nonneg (by omega)
  have hc2q : ((clampLogicalSize w h).2 : ℚ) = ((⌊(h : ℚ) * scale⌋ : ℤ) : ℚ) := by
    rw [hc2]
    exact_mod_cast Int.toNat_of_nonneg (by omega)
  refine ⟨?_, ⟨?_, ?_⟩, ?_⟩
  · rw [hc1, hc2]
    omega
  · have h1 : ((⌊(w : ℚ) * scale⌋ : ℤ) : ℚ) ≤ (w : ℚ) * scale := Int.floor_le _
    have h2 : (h : ℚ) * scale - 1 < ((⌊(h : ℚ) * scale⌋ : ℤ) : ℚ) := Int.sub_one_lt_floor _
    rw [hc1q, hc2q]
    nlinarith [mul_le_mul_of_nonneg_right h1 (le_of_lt hh0),
      mul_lt_mul_of_pos_right h2 hw0]
  · have h1 : (w : ℚ) * scale - 1 < ((⌊(w : ℚ) * scale⌋ : ℤ) : ℚ) := Int.sub_one_lt_floor _
    have h2 : ((⌊(h : ℚ) * scale⌋ : ℤ) : ℚ) ≤ (h : ℚ) * scale := Int.floor_le _
    rw [hc1q, hc2q]
    nlinarith [mul_lt_mul_of_pos_right h1 hh0,
      mul_le_mul_of_nonneg_right h2 (le_of_lt hw0)]
  · intro hw800 hh800
    have hwq : (800 : ℚ) ≤ (w : ℚ) := by exact_mod_cast hw800
    have hhq : (800 : ℚ) ≤ (h : ℚ) := by exact_mod_cast hh800
    have hsw1 : (800 : ℚ) / w ≤ 1 := by
      rw [div_le_one hw0]
      exact hwq
    have hsh1 : (800 : ℚ) / h ≤ 1 := by
      rw [div_le_one hh0]
      exact hhq
    have hse : scale = 1 := by
      rw [hscale, max_eq_right (max_le hsw1 hsh1)]
    have e1 : (clampLogicalSize w h).1 = w := by
      rw [hc1, hse, mul_one, Int.floor_natCast]
      exact Int.toNat_natCast w
    have e2 : (clampLogicalSize w h).2 = h := by
      rw [hc2, hse, mul_one, Int.floor_natCast]
      exact Int.toNat_natCast h
    calc clampLogicalSize w h = ((clampLogicalSize w h).1, (clampLogicalSize w h).2) := rfl
    _ = (w, h) := by rw [e1, e2]

/-- Witness for C7: the universal part instantiated at the concrete input
`(414, 896)`. -/
theorem C7_clamp_logical_size_witness :
    (1 ≤ (414 : ℕ) ∧ 1 ≤ (896 : ℕ)) ∧
    ((800 ≤ min (clampLogicalSize 414 896).1 (clampLogicalSize 414 896).2) ∧
     (((clampLogicalSize 414 896).1 : ℚ) * 896 - ((clampLogicalSize 414 896).2 : ℚ) * 414 < 414 ∧
       -((896 : ℕ) : ℚ) < ((clampLogicalSize 414 896).1 : ℚ) * 896 -
         ((clampLogicalSize 414 896).2 : ℚ) * 414) ∧
     (800 ≤ (414 : ℕ) → 800 ≤ (896 : ℕ) → clampLogicalSize 414 896 = (414, 896))) :=
  ⟨by decide, by
    have h := C7_clamp_logical_size.2.2.2 414 896 (by decide) (by decide)
    exact_mod_cast h⟩

/-- C5: Across every sequence of `LineUniforms::tick` calls starting from a
uniforms state whose crossfade factor is zero (as produced by
`LineUniforms::new`), `line_noise_blend_factor` stays in `[0, 1)`;
moreover, at any uniforms state, whenever a tick's increment would carry the
factor past 1 (the increment branch is active and the incremented factor
exceeds 1), the same tick resets the factor to 0 and simultaneously sets
`offset_1` to the tick's updated `offset_2` while zeroing `offset_2`. -/
theorem C5_blend_crossfade (ps : List ℚ) (u0 : LineUniforms)
    (h0 : u0.lineNoiseBlendFactor = 0)
    (u1 : LineUniforms) (p : ℚ)
    (ho : BLEND_THRESHOLD < u1.lineNoiseOffset1 + BASE_OFFSET * p)
    (hb : 1 < u1.lineNoiseBlendFactor + BASE_OFFSET) :
    (0 ≤ (runTicks ps u0).lineNoiseBlendFactor ∧
      (runTicks ps u0).lineNoiseBlendFactor < 1) ∧
    ((u1.tick p).lineNoiseBlendFactor = 0 ∧
      (u1.tick p).lineNoiseOffset1 = u1.lineNoiseOffset2 + BASE_OFFSET * p ∧
      (u1.tick p).lineNoiseOffset2 = 0) := by
  constructor
  · have hinv : BlendInv (runTicks ps u0).lineNoiseBlendFactor :=
      runTicks_blend_inv ps u0 ⟨0, by omega, by rw [h0]; norm_num⟩
    obtain ⟨k, hk, hbk⟩ := hinv
    have hkq : (k : ℚ) ≤ 666 := by exact_mod_cast hk
    have hk0 : (0 : ℚ) ≤ (k : ℚ) := by positivity
    constructor
    · rw [hbk, BASE_OFFSET]
      positivity
    · rw [hbk, BASE_OFFSET]
      linarith
  · refine ⟨?_, ?_, ?_⟩ <;> simp [LineUniforms.tick, ho, hb]

/-- Witness for C5: the trivial one-tick sequence from a freshly constructed
uniforms block, and a near-threshold state (crossfade factor `0.999` after
666 increments, offsets past the blend threshold) where the next tick with
perturbation 1 resets the factor and rolls the offsets. -/
theorem C5_blend_crossfade_witness :
    ((LineUniforms.new 1200 900 1 1 sampleSettings).lineNoiseBlendFactor = 0 ∧
     BLEND_THRESHOLD <
       ({ LineUniforms.new 1200 900 1 1 sampleSettings with
           lineNoiseOffset1 := 5, lineNoiseOffset2 := 7,
           lineNoiseBlendFactor := 999 / 1000 } : LineUniforms).lineNoiseOffset1 +
         BASE_OFFSET * 1 ∧
     1 < ({ LineUniforms.new 1200 900 1 1 sampleSettings with
             lineNoiseOffset1 := 5, lineNoiseOffset2 := 7,
             lineNoiseBlendFactor := 999 / 1000 } : LineUniforms).lineNoiseBlendFactor +
           BASE_OFFSET) ∧
    ((0 ≤ (runTicks [1] (LineUniforms.new 1200 900 1 1 sampleSettings)).lineNoiseBlendFactor ∧
      (runTicks [1] (LineUniforms.new 1200 900 1 1 sampleSettings)).lineNoiseBlendFactor < 1) ∧
     ((({ LineUniforms.new 1200 900 1 1 sampleSettings with
           lineNoiseOffset1 := 5, lineNoiseOffset2 := 7,
           lineNoiseBlendFactor := 999 / 1000 } : LineUniforms).tick 1).lineNoiseBlendFactor = 0 ∧
      (({ LineUniforms.new 1200 900 1 1 sampleSettings with
           lineNoiseOffset1 := 5, lineNoiseOffset2 := 7,
           lineNoiseBlendFactor := 999 / 1000 } : LineUniforms).tick 1).lineNoiseOffset1 =
        ({ LineUniforms.new 1200 900 1 1 sampleSettings with
            lineNoiseOffset1 := 5, lineNoiseOffset2 := 7,
            lineNoiseBlendFactor := 999 / 1000 } : LineUniforms).lineNoiseOffset2 +
          BASE_OFFSET * 1 ∧
      (({ LineUniforms.new 1200 900 1 1 sampleSettings with
           lineNoiseOffset1 := 5, lineNoiseOffset2 := 7,
           lineNoiseBlendFactor := 999 / 1000 } : LineUniforms).tick 1).lineNoiseOffset2 = 0)) :=
  ⟨⟨by with_unfolding_all decide, by with_unfolding_all decide, by with_unfolding_all decide⟩,
   C5_blend_crossfade [1] (LineUniforms.new 1200 900 1 1 sampleSettings)
     (by with_unfolding_all decide)
     { LineUniforms.new 1200 900 1 1 sampleSettings with
        lineNoiseOffset1 := 5, lineNoiseOffset2 := 7, lineNoiseBlendFactor := 999 / 1000 }
     1 (by with_unfolding_all decide) (by with_unfolding_all decide)⟩

/-- C10: For every `Drawer` reachable from `Drawer::new` by any sequence of
`update`, `resize`, `set_color_texture` and `place_lines` calls, the
`color_mode` uniform is always 0 or 1 — `Peacock` maps to 0, every other
color scheme to 1, and loading a color texture sets 1, so the value 2 is
never assigned — and therefore `is_srgb()` always returns `false`. -/
theorem C10_color_mode_invariant (s0 : Settings) (lw lh pw ph : ℕ) (ops : List DrawerOp) :
    ((runDrawerOps ops (DrawerState.new s0 lw lh pw ph)).uniforms.colorMode = 0 ∨
      (runDrawerOps ops (DrawerState.new s0 lw lh pw ph)).uniforms.colorMode = 1) ∧
    (runDrawerOps ops (DrawerState.new s0 lw lh pw ph)).isSrgb = false ∧
    colorSchemeToMode ColorScheme.peacock = 0 ∧
    (∀ cs : ColorScheme, cs ≠ ColorScheme.peacock → colorSchemeToMode cs = 1) := by
  have hnew : (DrawerState.new s0 lw lh pw ph).uniforms.colorMode = 0 ∨
      (DrawerState.new s0 lw lh pw ph).uniforms.colorMode = 1 := by
    simpa [DrawerState.new, LineUniforms.new] using
      colorSchemeToMode_zero_or_one s0.colorScheme
  have hmode := runDrawerOps_colorMode ops _ hnew
  refine ⟨hmode, ?_, rfl, ?_⟩
  · rcases hmode with h | h <;> simp [DrawerState.isSrgb, h]
  · intro cs hcs
    cases cs with
    | peacock => exact absurd rfl hcs
    | plasma => rfl
    | poolside => rfl
    | freedom => rfl
    | fromImage path => rfl

/-- Witness for C10: a concrete run (the sample settings, one resize, one
successful color-texture load and one `place_lines`), and the non-Peacock
scheme `Plasma`. -/
theorem C10_color_mode_invariant_witness :
    (((runDrawerOps
        [DrawerOp.resize 414 896 828 1792,
         DrawerOp.setColorTexture (some (640, 400)),
         DrawerOp.placeLines 1 (1 / 60)]
        (DrawerState.new sampleSettings 1200 900 1200 900)).uniforms.colorMode = 0 ∨
      (runDrawerOps
        [DrawerOp.resize 414 896 828 1792,
         DrawerOp.setColorTexture (some (640, 400)),
         DrawerOp.placeLines 1 (1 / 60)]
        (DrawerState.new sampleSettings 1200 900 1200 900)).uniforms.colorMode = 1) ∧
     (runDrawerOps
        [DrawerOp.resize 414 896 828 1792,
         DrawerOp.setColorTexture (some (640, 400)),
         DrawerOp.placeLines 1 (1 / 60)]
        (DrawerState.new sampleSettings 1200 900 1200 900)).isSrgb = false ∧
     colorSchemeToMode ColorScheme.peacock = 0 ∧
     (∀ cs : ColorScheme, cs ≠ ColorScheme.peacock → colorSchemeToMode cs = 1)) ∧
    ColorScheme.plasma ≠ ColorScheme.peacock ∧
    colorSchemeToMode ColorScheme.plasma = 1 :=
  ⟨C10_color_mode_invariant sampleSettings 1200 900 1200 900
      [DrawerOp.resize 414 896 828 1792,
       DrawerOp.setColorTexture (some (640, 400)),
       DrawerOp.placeLines 1 (1 / 60)],
   by decide,
   (C10_color_mode_invariant sampleSettings 1200 900 1200 900 []).2.2.2
     ColorScheme.plasma (by decide)⟩

/-- C8: When the supplied image bytes cannot be decoded,
`Drawer::set_color_texture` does not return an `InvalidColorSource` error
result: the source calls `image::load_from_memory(encoded_bytes).unwrap()`,
so the call panics (aborting the process) instead of surfacing an error to
the caller — the claim describes the documented design, the code a slip. -/
theorem C8_decode_failure_panics (d : DrawerState) (decoded : Option (ℕ × ℕ))
    (hfail : decoded = none) :
    DrawerState.setColorTexture decoded d = PanicOr.panicked := by
  rw [hfail]
  rfl

/-- Witness for C8: a freshly constructed drawer fed undecodable bytes
(decode outcome `none`) panics. -/
theorem C8_decode_failure_panics_witness :
    ((none : Option (ℕ × ℕ)) = none) ∧
    DrawerState.setColorTexture none (DrawerState.new sampleSettings 1200 900 1200 900) =
      PanicOr.panicked :=
  ⟨rfl, C8_decode_failure_panics (DrawerState.new sampleSettings 1200 900 1200 900) none rfl⟩

/-- C6 counterexample: `Flux::resize` does not reinitialise the FluidField —
the `self.fluid.resize(...)` call is commented out.  Concretely, construct
`Flux` at logical size 2408×14 (grid scaling ratio `173/171 > 1`) and resize
to 1280×800 (new grid scaling ratio 1): the fluid context still carries the
old ratio, so its resources do not match the new grid dimensions as the
claim requires. -/
theorem C6_counterexample :
    ¬ ((FluxState.resize 1280 800 1280 800
          (FluxState.new sampleSettings 2408 14 2408 14)).fluid.ratioX =
        (FluxState.resize 1280 800 1280 800
          (FluxState.new sampleSettings 2408 14 2408 14)).grid.scalingRatioX ∧
       (FluxState.resize 1280 800 1280 800
          (FluxState.new sampleSettings 2408 14 2408 14)).fluid.ratioY =
        (FluxState.resize 1280 800 1280 800
          (FluxState.new sampleSettings 2408 14 2408 14)).grid.scalingRatioY) := by
  with_unfolding_all decide

/-- C6 (amended): After `Flux::resize`, the Grid has been rebuilt at the new
dimensions, the LineState buffers contain only zero-initialised entries, and
the NoiseGenerator channel offsets are unchanged — but the FluidField is NOT
reinitialised: the fluid context is exactly the one from before the resize
(the fluid-resize call is commented out in the source).  Likewise
`Drawer::resize` rebuilds the grid at the (clamped) new size and overwrites
the line-state buffer with zeroed entries. -/
theorem C6_resize_amended (st : FluxState) (lw lh pw ph : ℕ)
    (d : DrawerState) (lw2 lh2 pw2 ph2 : ℕ) :
    (FluxState.resize lw lh pw ph st).grid = Grid.new lw lh st.settings.gridSpacing ∧
    (FluxState.resize lw lh pw ph st).lines.lineStateBuffer =
      List.replicate ((Grid.new lw lh st.settings.gridSpacing).lineCount) LineState.zero ∧
    (FluxState.resize lw lh pw ph st).noise.offsets = st.noise.offsets ∧
    (FluxState.resize lw lh pw ph st).fluid = st.fluid ∧
    ((DrawerState.resize lw2 lh2 pw2 ph2 d).grid =
      Grid.new (clampLogicalSize lw2 lh2).1 (clampLogicalSize lw2 lh2).2
        d.settings.gridSpacing ∧
     (DrawerState.resize lw2 lh2 pw2 ph2 d).lineStateBuffer =
      List.replicate ((DrawerState.resize lw2 lh2 pw2 ph2 d).grid.lineCount)
        LineState.zero) := by
  refine ⟨rfl, ?_, rfl, rfl, rfl, ?_⟩
  · exact grid_lineState_replicate lw lh st.settings.gridSpacing
  · exact grid_lineState_replicate (clampLogicalSize lw2 lh2).1 (clampLogicalSize lw2 lh2).2
      d.settings.gridSpacing

set_option maxRecDepth 4000 in
/-- C2 counterexample: the claim's strict decrease fails on an already
divergence-free field — for the zero velocity field the divergence is 0 both
before and after projection (at 20 pressure iterations), so the
post-projection divergence is not smaller in magnitude. -/
theorem C2_counterexample :
    ¬ (divNormAfter 20 vZero vZero < l1norm (divergence3 vZero vZero)) := by
  with_unfolding_all decide

/-- C2 (amended): On the spec-modelled projection (divergence, Jacobi
pressure solve from a cleared field, subtract gradient, on the 3×3 periodic
grid): for every velocity field whose divergence is nonzero, the
post-projection divergence magnitude strictly decreases with every
additional pressure iteration — in particular it is already strictly
smaller than the pre-projection divergence magnitude at one iteration, and
decreases strictly through the spec's tested counts 1 → 5 → 20; for every
already divergence-free field the divergence is exactly 0 at every
iteration count, so the strict decrease claimed for every field cannot
hold universally. -/
theorem C2_projection_amended :
    (∀ u v : List ℚ, divergence3 u v ≠ List.replicate 9 0 →
      (∀ k : ℕ, divNormAfter (k + 1) u v < divNormAfter k u v) ∧
      divNormAfter 1 u v < l1norm (divergence3 u v) ∧
      divNormAfter 5 u v < divNormAfter 1 u v ∧
      divNormAfter 20 u v < divNormAfter 5 u v) ∧
    (∀ u v : List ℚ, divergence3 u v = List.replicate 9 0 →
      ∀ k : ℕ, divNormAfter k u v = 0) := by
  constructor
  · intro u v hd
    have anti := divNormAfter_strictAnti u v hd
    refine ⟨fun k => divNormAfter_strict_succ u v k hd, ?_, ?_, ?_⟩
    · calc divNormAfter 1 u v < divNormAfter 0 u v := divNormAfter_strict_succ u v 0 hd
      _ = l1norm (divergence3 u v) := by rw [divNormAfter_eq, divAfter_zero]
    · simpa using anti (show (1 : ℕ) < 5 by norm_num)
    · simpa using anti (show (5 : ℕ) < 20 by norm_num)
  · intro u v hd k
    exact divNormAfter_zero_field u v hd k

/-- Witness for C2 (amended): the representative field `uSample` (nonzero
divergence) exercises the strict-decrease branch, and the zero field
exercises the divergence-free branch. -/
theorem C2_projection_amended_witness :
    (divergence3 uSample vZero ≠ List.replicate 9 0 ∧
     divergence3 vZero vZero = List.replicate 9 0) ∧
    ((∀ k : ℕ, divNormAfter (k + 1) uSample vZero < divNormAfter k uSample vZero) ∧
     divNormAfter 1 uSample vZero < l1norm (divergence3 uSample vZero) ∧
     divNormAfter 5 uSample vZero < divNormAfter 1 uSample vZero ∧
     divNormAfter 20 uSample vZero < divNormAfter 5 uSample vZero) ∧
    divNormAfter 20 vZero vZero = 0 :=
  ⟨⟨by with_unfolding_all decide, by with_unfolding_all decide⟩,
   C2_projection_amended.1 uSample vZero (by with_unfolding_all decide),
   C2_projection_amended.2 vZero vZero (by with_unfolding_all decide) 20⟩

/-- Witness for C3: a concrete tick (fluid timestep `1/60`, initial clock
state, timestamp 50 ms) satisfying the hypotheses; the delta is `0.05` and
three fixed steps are emitted. -/
theorem C3_clock_tick_witness :
    (0 : ℚ) < 1 / 60 ∧
    (min MAX_FRAME_TIME (((50 : ℚ) - ({ last := 0, elapsed := 0, acc := 0 } : ClockState).last) / 1000) =
      max 0 (min MAX_FRAME_TIME (((50 : ℚ) - ({ last := 0, elapsed := 0, acc := 0 } : ClockState).last) / 1000)) ∧
    (computeTick (1 / 60) { last := 0, elapsed := 0, acc := 0 } 50).state.elapsed =
      (if MAX_ELAPSED_TIME ≤ ({ last := 0, elapsed := 0, acc := 0 } : ClockState).elapsed +
          min MAX_FRAME_TIME (((50 : ℚ) - ({ last := 0, elapsed := 0, acc := 0 } : ClockState).last) / 1000) then
        ({ last := 0, elapsed := 0, acc := 0 } : ClockState).elapsed +
          min MAX_FRAME_TIME (((50 : ℚ) - ({ last := 0, elapsed := 0, acc := 0 } : ClockState).last) / 1000) - MAX_ELAPSED_TIME
      else ({ last := 0, elapsed := 0, acc := 0 } : ClockState).elapsed +
          min MAX_FRAME_TIME (((50 : ℚ) - ({ last := 0, elapsed := 0, acc := 0 } : ClockState).last) / 1000)) ∧
    0 ≤ (computeTick (1 / 60) { last := 0, elapsed := 0, acc := 0 } 50).state.elapsed ∧
    (computeTick (1 / 60) { last := 0, elapsed := 0, acc := 0 } 50).steps =
      (⌊(({ last := 0, elapsed := 0, acc := 0 } : ClockState).acc +
          min MAX_FRAME_TIME (((50 : ℚ) - ({ last := 0, elapsed := 0, acc := 0 } : ClockState).last) / 1000)) / (1 / 60)⌋).toNat ∧
    (({ last := 0, elapsed := 0, acc := 0 } : ClockState).acc +
        min MAX_FRAME_TIME (((50 : ℚ) - ({ last := 0, elapsed := 0, acc := 0 } : ClockState).last) / 1000) < 1 / 60 →
      (computeTick (1 / 60) { last := 0, elapsed := 0, acc := 0 } 50).steps = 0)) :=
  ⟨by norm_num,
   C3_clock_tick (1 / 60) (by norm_num) { last := 0, elapsed := 0, acc := 0 } 50
     (by norm_num) (by norm_num)⟩

end Flux
